import Mathlib

/-!
Shallow embedding of the pointer-memo codec and transaction assembler of the
`pft-test-client` SDK (files `sdk/validation.py`, `sdk/pointer.py`,
`sdk/transaction.py`).  Python exceptions are modelled by `Except PyErr`;
Python `bytes` by `List Nat` (each entry < 256); Python `str` by `String`;
Python `int` by `Int`.
-/

namespace Pft

/-- Python error values raised by the SDK: `ValidationError msg` (the subclass
raised by the validators) and plain `ValueError msg`. -/
inductive PyErr where
  | validation (msg : String)
  | value (msg : String)
deriving DecidableEq, Repr

/-- The `except ValidationError as exc: raise ValueError(str(exc))` pattern:
a `ValidationError` is re-raised as a plain `ValueError` with the same
message; any other error passes through unchanged. -/
def rewrapValidation : PyErr → PyErr
  | .validation m => .value m
  | .value m => .value m

/-- Boolean success test for `Except` results. -/
def isOkE {α : Type} : Except PyErr α → Bool
  | .ok _ => true
  | .error _ => false

/-! ## sdk/validation.py -/

/-- `MAX_INT32 = 2**31 - 1`. -/
def MAX_INT32 : Int := 2 ^ 31 - 1

/-- Python `s.startswith(pre)` on character sequences. -/
def strStartsWith (s pre : String) : Bool := pre.data.isPrefixOf s.data

/-- `validate_cid` (validation.py lines 21-25): non-empty string, starts with
`"bafk"` or `"bafy"` (the `CID_PREFIXES` tuple), length at least 20. -/
def validate_cid (cid : String) : Except PyErr Unit :=
  if cid = "" then .error (.validation "cid must be a non-empty string")
  else if ¬(strStartsWith cid "bafk" = true ∨ strStartsWith cid "bafy" = true)
      ∨ cid.length < 20 then
    .error (.validation ("cid has unexpected format: " ++ cid))
  else .ok ()

/-- One character of the regex class `[1-9A-HJ-NP-Za-km-z]` used by
`validate_xrp_address` (base58 alphabet: no `0`, `I`, `O`, `l`). -/
def isXrpAddrChar (c : Char) : Bool :=
  ('1' ≤ c && c ≤ '9') || ('A' ≤ c && c ≤ 'H') || ('J' ≤ c && c ≤ 'N')
    || ('P' ≤ c && c ≤ 'Z') || ('a' ≤ c && c ≤ 'k') || ('m' ≤ c && c ≤ 'z')

/-- `re.fullmatch(r"r[1-9A-HJ-NP-Za-km-z]{24,34}", a)`: the whole string is
an `r` followed by 24 to 34 characters of the class above. -/
def xrpAddressMatch (a : String) : Bool :=
  match a.data with
  | [] => false
  | c :: rest =>
      c = 'r' && decide (24 ≤ rest.length) && decide (rest.length ≤ 34)
        && rest.all isXrpAddrChar

/-- `validate_xrp_address` (validation.py lines 28-32). -/
def validate_xrp_address (address : String) : Except PyErr Unit :=
  if address = "" then .error (.validation "address must be a non-empty string")
  else if xrpAddressMatch address then .ok ()
  else .error (.validation ("invalid XRP address format: " ++ address))

/-- `validate_non_negative_int` (validation.py lines 35-39).  The embedding
fixes `value : Int` (the Python `isinstance(value, int)` branch is outside
the `Int` domain). -/
def validate_non_negative_int (value : Int) (name : String) : Except PyErr Unit :=
  if value < 0 then .error (.validation (name ++ " must be a non-negative integer"))
  else if value > MAX_INT32 then
    .error (.validation (name ++ " must be <= " ++ toString MAX_INT32))
  else .ok ()

/-! ## sdk/pointer.py -/

/-- `POINTER_KIND` table: the single entry `"TASK_SUBMISSION" → 6`. -/
def POINTER_KIND (kind : String) : Option Nat :=
  if kind = "TASK_SUBMISSION" then some 6 else none

/-- The `while True` loop of `_encode_varint`, written with explicit fuel so
it is structural: emit `value & 0x7F` (`= value % 128`), shift by 7
(`= value / 128`), set the continuation bit `0x80` (`= + 128`) on every byte
except the last.  The fuel is always sufficient (`encodeVarintNat_eq`
recovers the loop equation). -/
def encodeVarintGo : Nat → Nat → List Nat
  | 0, v => [v]
  | fuel + 1, v =>
      if v < 128 then [v] else (v % 128 + 128) :: encodeVarintGo fuel (v / 128)

/-- LEB128 encoding of a non-negative value (the loop body of `_encode_varint`). -/
def encodeVarintNat (v : Nat) : List Nat := encodeVarintGo (v + 1) v

/-- `_encode_varint` (pointer.py lines 26-39): rejects negative values with
`ValueError("varint cannot be negative")`, otherwise runs the LEB128 loop. -/
def _encode_varint (value : Int) : Except PyErr (List Nat) :=
  if value < 0 then .error (.value "varint cannot be negative")
  else .ok (encodeVarintNat value.toNat)

/-- `_encode_key` (pointer.py lines 42-44): `(field_number << 3) | wire_type`
as a varint.  Field numbers and wire types are non-negative literals at every
call site, so the varint loop is applied directly. -/
def _encode_key (field_number wire_type : Nat) : List Nat :=
  encodeVarintNat ((field_number <<< 3) ||| wire_type)

/-- UTF-8 encoding of one scalar value (Python `str.encode("utf-8")`,
per code point). -/
def utf8EncodeCharNat (c : Char) : List Nat :=
  let n := c.toNat
  if n < 128 then [n]
  else if n < 2048 then [192 + n / 64, 128 + n % 64]
  else if n < 65536 then [224 + n / 4096, 128 + (n / 64) % 64, 128 + n % 64]
  else [240 + n / 262144, 128 + (n / 4096) % 64, 128 + (n / 64) % 64, 128 + n % 64]

/-- Python `value.encode("utf-8")` as a byte list. -/
def utf8Bytes (s : String) : List Nat :=
  s.data.foldr (fun c acc => utf8EncodeCharNat c ++ acc) []

/-- `_encode_string` (pointer.py lines 47-49): key with wire type 2, then the
byte length as a varint, then the raw UTF-8 bytes. -/
def _encode_string (field_number : Nat) (value : String) : List Nat :=
  _encode_key field_number 2 ++ encodeVarintNat (utf8Bytes value).length ++ utf8Bytes value

/-- `_encode_varint_field` (pointer.py lines 52-53): key with wire type 0,
then the value as a varint (failing when the value is negative). -/
def _encode_varint_field (field_number : Nat) (value : Int) : Except PyErr (List Nat) :=
  match _encode_varint value with
  | .error e => .error e
  | .ok bs => .ok (_encode_key field_number 0 ++ bs)

/-- The `try` block of `encode_pointer_memo` (pointer.py lines 69-74):
validate `cid`, `schema`, `flags`, and — only when present — `unknown8`,
in this order, stopping at the first failure. -/
def validatePointerFields (cid : String) (schema flags : Int)
    (unknown8 : Option Int) : Except PyErr Unit :=
  match validate_cid cid with
  | .error e => .error e
  | .ok _ =>
  match validate_non_negative_int schema "schema" with
  | .error e => .error e
  | .ok _ =>
  match validate_non_negative_int flags "flags" with
  | .error e => .error e
  | .ok _ =>
  match unknown8 with
  | some u => validate_non_negative_int u "unknown8"
  | none => .ok ()

/-- `encode_pointer_memo` (pointer.py lines 56-85): kind-table membership is
checked first; then the field validations (a `ValidationError` is re-raised
as `ValueError` with the same message); then the payload is accumulated as
field 1 (CID string), field 2 (schema), field 3 (kind code), field 4 (flags),
and field 8 (`unknown8`) only when it is not `None`. -/
def encode_pointer_memo (cid : String) (kind : String) (schema flags : Int)
    (unknown8 : Option Int) : Except PyErr (List Nat) :=
  match POINTER_KIND kind with
  | none => .error (.value ("Unknown pointer kind: " ++ kind))
  | some code =>
  match validatePointerFields cid schema flags unknown8 with
  | .error e => .error (rewrapValidation e)
  | .ok _ =>
  match _encode_varint_field 2 schema with
  | .error e => .error e
  | .ok f2 =>
  match _encode_varint_field 3 (Int.ofNat code) with
  | .error e => .error e
  | .ok f3 =>
  match _encode_varint_field 4 flags with
  | .error e => .error e
  | .ok f4 =>
  match unknown8 with
  | none => .ok (_encode_string 1 cid ++ f2 ++ f3 ++ f4)
  | some u =>
    match _encode_varint_field 8 u with
    | .error e => .error e
    | .ok f8 => .ok (_encode_string 1 cid ++ f2 ++ f3 ++ f4 ++ f8)

/-! ## sdk/transaction.py -/

/-- `DEFAULT_DESTINATION` constant. -/
def DEFAULT_DESTINATION : String := "rwdm72S9YVKkZjeADKU2bbUMuY4vPnSfH7"

/-- `DEFAULT_MEMO_TYPE` constant. -/
def DEFAULT_MEMO_TYPE : String := "pf.ptr"

/-- `DEFAULT_AMOUNT_DROPS` constant. -/
def DEFAULT_AMOUNT_DROPS : String := "1"

/-- `MAX_MEMO_BYTES` constant. -/
def MAX_MEMO_BYTES : Nat := 1024

/-- The code-point ranges on which Python `str.isdigit()` is true
(Unicode property `Numeric_Type = Decimal or Digit`), extracted from
CPython 3.11's `unicodedata` (Unicode 14.0.0): 788 characters, covering the
decimal digits of every script plus digit-only characters such as
superscripts, subscripts, and circled digits. -/
def pyDigitRanges : List (Nat × Nat) := [
  (0x30, 0x39), (0xB2, 0xB3), (0xB9, 0xB9), (0x660, 0x669), (0x6F0, 0x6F9),
  (0x7C0, 0x7C9), (0x966, 0x96F), (0x9E6, 0x9EF), (0xA66, 0xA6F),
  (0xAE6, 0xAEF), (0xB66, 0xB6F), (0xBE6, 0xBEF), (0xC66, 0xC6F),
  (0xCE6, 0xCEF), (0xD66, 0xD6F), (0xDE6, 0xDEF), (0xE50, 0xE59),
  (0xED0, 0xED9), (0xF20, 0xF29), (0x1040, 0x1049), (0x1090, 0x1099),
  (0x1369, 0x1371), (0x17E0, 0x17E9), (0x1810, 0x1819), (0x1946, 0x194F),
  (0x19D0, 0x19DA), (0x1A80, 0x1A89), (0x1A90, 0x1A99), (0x1B50, 0x1B59),
  (0x1BB0, 0x1BB9), (0x1C40, 0x1C49), (0x1C50, 0x1C59), (0x2070, 0x2070),
  (0x2074, 0x2079), (0x2080, 0x2089), (0x2460, 0x2468), (0x2474, 0x247C),
  (0x2488, 0x2490), (0x24EA, 0x24EA), (0x24F5, 0x24FD), (0x24FF, 0x24FF),
  (0x2776, 0x277E), (0x2780, 0x2788), (0x278A, 0x2792), (0xA620, 0xA629),
  (0xA8D0, 0xA8D9), (0xA900, 0xA909), (0xA9D0, 0xA9D9), (0xA9F0, 0xA9F9),
  (0xAA50, 0xAA59), (0xABF0, 0xABF9), (0xFF10, 0xFF19), (0x104A0, 0x104A9),
  (0x10A40, 0x10A43), (0x10D30, 0x10D39), (0x10E60, 0x10E68),
  (0x11052, 0x1105A), (0x11066, 0x1106F), (0x110F0, 0x110F9),
  (0x11136, 0x1113F), (0x111D0, 0x111D9), (0x112F0, 0x112F9),
  (0x11450, 0x11459), (0x114D0, 0x114D9), (0x11650, 0x11659),
  (0x116C0, 0x116C9), (0x11730, 0x11739), (0x118E0, 0x118E9),
  (0x11950, 0x11959), (0x11C50, 0x11C59), (0x11D50, 0x11D59),
  (0x11DA0, 0x11DA9), (0x16A60, 0x16A69), (0x16AC0, 0x16AC9),
  (0x16B50, 0x16B59), (0x1D7CE, 0x1D7FF), (0x1E140, 0x1E149),
  (0x1E2F0, 0x1E2F9), (0x1E950, 0x1E959), (0x1F100, 0x1F10A),
  (0x1FBF0, 0x1FBF9)]

/-- The code-point runs of Unicode decimal digits (category `Nd`, the
characters `int()` parses), from the same Unicode 14.0.0 data: each run is
ten consecutive code points with digit values `0..9`, so the value of a
character is its offset from the run start.  A subset of `pyDigitRanges`:
the difference (e.g. superscript `²`, circled `①`, Ethiopic `፩`) is
`isdigit`-true but rejected by `int()`. -/
def pyDecimalRanges : List (Nat × Nat) := [
  (0x30, 0x39), (0x660, 0x669), (0x6F0, 0x6F9), (0x7C0, 0x7C9),
  (0x966, 0x96F), (0x9E6, 0x9EF), (0xA66, 0xA6F), (0xAE6, 0xAEF),
  (0xB66, 0xB6F), (0xBE6, 0xBEF), (0xC66, 0xC6F), (0xCE6, 0xCEF),
  (0xD66, 0xD6F), (0xDE6, 0xDEF), (0xE50, 0xE59), (0xED0, 0xED9),
  (0xF20, 0xF29), (0x1040, 0x1049), (0x1090, 0x1099), (0x17E0, 0x17E9),
  (0x1810, 0x1819), (0x1946, 0x194F), (0x19D0, 0x19D9), (0x1A80, 0x1A89),
  (0x1A90, 0x1A99), (0x1B50, 0x1B59), (0x1BB0, 0x1BB9), (0x1C40, 0x1C49),
  (0x1C50, 0x1C59), (0xA620, 0xA629), (0xA8D0, 0xA8D9), (0xA900, 0xA909),
  (0xA9D0, 0xA9D9), (0xA9F0, 0xA9F9), (0xAA50, 0xAA59), (0xABF0, 0xABF9),
  (0xFF10, 0xFF19), (0x104A0, 0x104A9), (0x10D30, 0x10D39),
  (0x11066, 0x1106F), (0x110F0, 0x110F9), (0x11136, 0x1113F),
  (0x111D0, 0x111D9), (0x112F0, 0x112F9), (0x11450, 0x11459),
  (0x114D0, 0x114D9), (0x11650, 0x11659), (0x116C0, 0x116C9),
  (0x11730, 0x11739), (0x118E0, 0x118E9), (0x11950, 0x11959),
  (0x11C50, 0x11C59), (0x11D50, 0x11D59), (0x11DA0, 0x11DA9),
  (0x16A60, 0x16A69), (0x16AC0, 0x16AC9), (0x16B50, 0x16B59),
  (0x1D7CE, 0x1D7D7), (0x1D7D8, 0x1D7E1), (0x1D7E2, 0x1D7EB),
  (0x1D7EC, 0x1D7F5), (0x1D7F6, 0x1D7FF), (0x1E140, 0x1E149),
  (0x1E2F0, 0x1E2F9), (0x1E950, 0x1E959), (0x1FBF0, 0x1FBF9)]

/-- A character Python's `str.isdigit()` counts as a digit. -/
def isPyDigitChar (c : Char) : Bool :=
  pyDigitRanges.any (fun r => decide (r.1 ≤ c.toNat) && decide (c.toNat ≤ r.2))

/-- Range-table lookup returning the offset of a code point inside the run
that contains it. -/
def lookupRangeVal : List (Nat × Nat) → Nat → Option Nat
  | [], _ => none
  | r :: rs, n =>
      if r.1 ≤ n ∧ n ≤ r.2 then some (n - r.1) else lookupRangeVal rs n

/-- The decimal value of a character if it is a Unicode decimal digit
(the digits `int()` accepts), `none` otherwise. -/
def pyDecDigitVal (c : Char) : Option Nat := lookupRangeVal pyDecimalRanges c.toNat

/-- Python `amount_drops.isdigit()`: non-empty and every character a
Unicode digit. -/
def pyIsdigit (s : String) : Bool := !s.isEmpty && s.data.all isPyDigitChar

/-- Python `int(s)` on the strings reachable under the `isdigit()` guard
(no sign, whitespace, or underscore — `isdigit` excludes those characters):
parses when every character is a Unicode decimal digit, and returns `none`
— modelling `int()` raising `ValueError` — otherwise (e.g. on superscript
or circled digits, which are `isdigit`-true but not decimal). -/
def pyIntDigits (s : String) : Option Nat :=
  if !s.isEmpty && s.data.all (fun c => (pyDecDigitVal c).isSome) then
    some (s.data.foldl (fun a c => a * 10 + (pyDecDigitVal c).getD 0) 0)
  else none

/-- One lowercase hex digit (`0`-`9`, `a`-`f`) for a value below 16. -/
def hexDigitChar (n : Nat) : Char :=
  if n < 10 then Char.ofNat (48 + n) else Char.ofNat (87 + n)

/-- Python `bytes.hex()`: each byte as two lowercase hex digits, no
separators, no prefix. -/
def bytesHex (bs : List Nat) : String :=
  String.mk (bs.foldr (fun b acc => hexDigitChar (b / 16) :: hexDigitChar (b % 16) :: acc) [])

/-- The inner `{"MemoType": ..., "MemoData": ...}` object. -/
structure MemoObj where
  MemoType : String
  MemoData : String
deriving DecidableEq, Repr

/-- One entry of the `Memos` list (`{"Memo": {...}}`). -/
structure MemoEntry where
  Memo : MemoObj
deriving DecidableEq, Repr

/-- The transaction descriptor returned by `build_pointer_transaction`. -/
structure Tx where
  TransactionType : String
  Account : String
  Destination : String
  Amount : String
  Memos : List MemoEntry
deriving DecidableEq, Repr

/-- The `try` block of `build_pointer_transaction` (transaction.py lines
33-37): addresses first, then the CID, then the two bounded integers,
stopping at the first failure. -/
def validateBuildInputs (account destination cid : String)
    (schema flags : Int) : Except PyErr Unit :=
  match validate_xrp_address account with
  | .error e => .error e
  | .ok _ =>
  match validate_xrp_address destination with
  | .error e => .error e
  | .ok _ =>
  match validate_cid cid with
  | .error e => .error e
  | .ok _ =>
  match validate_non_negative_int schema "schema" with
  | .error e => .error e
  | .ok _ => validate_non_negative_int flags "flags"

/-- `build_pointer_transaction` (transaction.py lines 23-61): validate the
inputs (re-raising `ValidationError` as `ValueError`), encode the memo with
`unknown8` defaulting to `1`, run the amount check
`if not amount_drops.isdigit() or int(amount_drops) <= 0` — the `or`
short-circuits, so `int()` is evaluated only when `isdigit()` holds, and
`int()`'s own `ValueError` (for a digit-class character that is not a
decimal digit) propagates uncaught — then reject a memo beyond
`MAX_MEMO_BYTES` and assemble the Payment descriptor. -/
def build_pointer_transaction (account cid : String) (kind : String)
    (destination : String) (schema flags : Int) (amount_drops : String) :
    Except PyErr Tx :=
  match validateBuildInputs account destination cid schema flags with
  | .error e => .error (rewrapValidation e)
  | .ok _ =>
  match encode_pointer_memo cid kind schema flags (some 1) with
  | .error e => .error e
  | .ok memo_payload =>
  if !pyIsdigit amount_drops then
    .error (.value "amount_drops must be a positive integer string")
  else
  match pyIntDigits amount_drops with
  | none =>
      .error (.value ("invalid literal for int() with base 10: '"
        ++ amount_drops ++ "'"))
  | some n =>
  if n ≤ 0 then
    .error (.value "amount_drops must be a positive integer string")
  else if memo_payload.length > MAX_MEMO_BYTES then
    .error (.value ("MemoData too large: " ++ toString memo_payload.length
      ++ " bytes (max " ++ toString MAX_MEMO_BYTES ++ ")"))
  else
    .ok { TransactionType := "Payment"
          Account := account
          Destination := destination
          Amount := amount_drops
          Memos := [{ Memo := { MemoType := bytesHex (utf8Bytes DEFAULT_MEMO_TYPE)
                                MemoData := bytesHex memo_payload } }] }

/-! ## LEB128 decoder

Modelled from the spec: the repository ships no varint decoder; §8 of the
spec states the round-trip property against the LEB128 reading of the wire
format ("7 bits per byte, low-to-high, continuation bit set on all but the
last byte"). -/

/-- Modelled from the spec: read one LEB128 varint from the front of a byte
list, returning the value and the remaining bytes; a byte below 128 ends the
varint, a byte with the continuation bit contributes its low 7 bits. -/
def decodeVarintAux : List Nat → Option (Nat × List Nat)
  | [] => none
  | b :: rest =>
      if b < 128 then some (b, rest)
      else
        match decodeVarintAux rest with
        | some (v, r) => some (b % 128 + 128 * v, r)
        | none => none

/-- Modelled from the spec: decode a byte list that holds exactly one varint. -/
def decodeVarint (bs : List Nat) : Option Nat :=
  match decodeVarintAux bs with
  | some (v, []) => some v
  | _ => none

/-! ## Concrete values used by the spec's examples -/

/-- The CID used throughout the spec's examples and the repository's tests. -/
def testCid : String := "bafkreiTESTCID1234567890"

/-- The valid address used by the spec's examples. -/
def testAccount : String := "r9cZA1mLK5R5Am25ArfXFmqgNwjZgnfk59"

/-- A CID that passes `validate_cid` (prefix `bafk`, 20 characters) but whose
16 `é` characters each occupy two UTF-8 bytes, so its byte length differs
from its character length. -/
def multibyteCid : String := "bafkéééééééééééééééé"

/-- First `.ok` payload of an encoder result (empty list on error). -/
def okBytes (e : Except PyErr (List Nat)) : List Nat :=
  match e with
  | .ok l => l
  | .error _ => []

/-- The `.ok` transaction of a build result (dummy descriptor on error). -/
def okTx (e : Except PyErr Tx) : Tx :=
  match e with
  | .ok t => t
  | .error _ => { TransactionType := "", Account := "", Destination := "",
                  Amount := "", Memos := [] }

/-- The memo bytes of the spec's example record. -/
def testMemo : List Nat := okBytes (encode_pointer_memo testCid "TASK_SUBMISSION" 1 1 (some 1))

/-- Sequence containment on byte lists (`pattern in memo`). -/
def containsSeq (p l : List Nat) : Bool :=
  (List.range (l.length + 1)).any (fun i => ((l.drop i).take p.length) == p)

/-- A lowercase hex digit character: `0`-`9` or `a`-`f`. -/
def isHexLowerChar (c : Char) : Bool := c.isDigit || ('a' ≤ c && c ≤ 'f')

/-! ## Helper lemmas -/

theorem encodeVarintGo_fuel_irrel (fuel fuel' v : Nat) (h : v < fuel) (h' : v < fuel') :
    encodeVarintGo fuel v = encodeVarintGo fuel' v := by
  induction fuel generalizing fuel' v with
  | zero => omega
  | succ f ih =>
    cases fuel' with
    | zero => omega
    | succ f' =>
      simp only [encodeVarintGo]
      by_cases hv : v < 128
      · simp [hv]
      · have hd : v / 128 < v := Nat.div_lt_self (by omega) (by omega)
        simp only [if_neg hv]
        rw [ih f' (v / 128) (by omega) (by omega)]

theorem encodeVarintNat_eq (v : Nat) :
    encodeVarintNat v =
      if v < 128 then [v] else (v % 128 + 128) :: encodeVarintNat (v / 128) := by
  show encodeVarintGo (v + 1) v = _
  simp only [encodeVarintGo]
  by_cases hv : v < 128
  · simp [hv]
  · have hd : v / 128 < v := Nat.div_lt_self (by omega) (by omega)
    simp only [if_neg hv]
    rw [encodeVarintGo_fuel_irrel v (v / 128 + 1) (v / 128) (by omega) (by omega)]
    rfl

theorem encodeVarintNat_length_pos (v : Nat) : 1 ≤ (encodeVarintNat v).length := by
  rw [encodeVarintNat_eq]
  by_cases hv : v < 128 <;> simp [hv]

theorem encodeVarintNat_lt128 (v : Nat) (h : v < 128) : encodeVarintNat v = [v] := by
  rw [encodeVarintNat_eq, if_pos h]

theorem encodeVarintNat_length_two (v : Nat) (h1 : 128 ≤ v) (h2 : v < 16384) :
    (encodeVarintNat v).length = 2 := by
  rw [encodeVarintNat_eq, if_neg (by omega), encodeVarintNat_lt128 (v / 128) (by omega)]
  rfl

theorem encodeVarintNat_length_ge_two (v : Nat) (h : 128 ≤ v) :
    2 ≤ (encodeVarintNat v).length := by
  rw [encodeVarintNat_eq, if_neg (by omega)]
  have := encodeVarintNat_length_pos (v / 128)
  simp only [List.length_cons]
  omega

theorem decodeVarintAux_encode (v : Nat) (r : List Nat) :
    decodeVarintAux (encodeVarintNat v ++ r) = some (v, r) := by
  induction v using Nat.strong_induction_on with
  | _ v ih =>
    rw [encodeVarintNat_eq]
    by_cases hv : v < 128
    · simp [hv, decodeVarintAux]
    · have hd : v / 128 < v := Nat.div_lt_self (by omega) (by omega)
      simp only [if_neg hv, List.cons_append, decodeVarintAux]
      rw [if_neg (by omega), ih (v / 128) hd]
      have hm : (v % 128 + 128) % 128 = v % 128 := by
        rw [Nat.add_mod_right]
        exact Nat.mod_eq_of_lt (Nat.mod_lt _ (by omega))
      rw [hm]
      simp only [Option.some.injEq, Prod.mk.injEq]
      exact ⟨by omega, trivial⟩

theorem decodeVarint_encode (v : Nat) : decodeVarint (encodeVarintNat v) = some v := by
  have h := decodeVarintAux_encode v []
  rw [List.append_nil] at h
  rw [decodeVarint, h]

theorem validate_non_negative_int_ok_iff (v : Int) (name : String) :
    validate_non_negative_int v name = .ok () ↔ 0 ≤ v ∧ v ≤ MAX_INT32 := by
  unfold validate_non_negative_int
  split_ifs with h1 h2 <;> simp <;> omega

theorem validate_non_negative_int_error_shape (v : Int) (name : String) (e : PyErr)
    (h : validate_non_negative_int v name = .error e) : ∃ m, e = PyErr.validation m := by
  unfold validate_non_negative_int at h
  split_ifs at h <;> simp_all <;> exact ⟨_, h.symm⟩

theorem validate_cid_error_shape (cid : String) (e : PyErr)
    (h : validate_cid cid = .error e) : ∃ m, e = PyErr.validation m := by
  unfold validate_cid at h
  split_ifs at h <;> simp_all <;> exact ⟨_, h.symm⟩

theorem validate_xrp_address_error_shape (a : String) (e : PyErr)
    (h : validate_xrp_address a = .error e) : ∃ m, e = PyErr.validation m := by
  unfold validate_xrp_address at h
  split_ifs at h <;> simp_all <;> exact ⟨_, h.symm⟩

theorem validateBuildInputs_error_shape (account destination cid : String)
    (schema flags : Int) (e : PyErr)
    (h : validateBuildInputs account destination cid schema flags = .error e) :
    ∃ m, e = PyErr.validation m := by
  unfold validateBuildInputs at h
  cases ha : validate_xrp_address account with
  | error e' =>
    rw [ha] at h
    cases h
    exact validate_xrp_address_error_shape _ _ ha
  | ok u =>
    cases u
    rw [ha] at h
    cases hb : validate_xrp_address destination with
    | error e' =>
      rw [hb] at h
      cases h
      exact validate_xrp_address_error_shape _ _ hb
    | ok u =>
      cases u
      rw [hb] at h
      cases hc : validate_cid cid with
      | error e' =>
        rw [hc] at h
        cases h
        exact validate_cid_error_shape _ _ hc
      | ok u =>
        cases u
        rw [hc] at h
        cases hs : validate_non_negative_int schema "schema" with
        | error e' =>
          rw [hs] at h
          cases h
          exact validate_non_negative_int_error_shape _ _ _ hs
        | ok u =>
          cases u
          rw [hs] at h
          exact validate_non_negative_int_error_shape _ _ _ h

theorem _encode_varint_field_ok (f : Nat) (v : Int) (h : 0 ≤ v) :
    _encode_varint_field f v = .ok (_encode_key f 0 ++ encodeVarintNat v.toNat) := by
  unfold _encode_varint_field _encode_varint
  rw [if_neg (by omega)]

theorem validatePointerFields_ok (cid : String) (schema flags u8 : Int)
    (hcid : validate_cid cid = .ok ())
    (hs : validate_non_negative_int schema "schema" = .ok ())
    (hf : validate_non_negative_int flags "flags" = .ok ())
    (hu : validate_non_negative_int u8 "unknown8" = .ok ()) :
    validatePointerFields cid schema flags (some u8) = .ok () := by
  unfold validatePointerFields
  rw [hcid, hs, hf]
  exact hu

theorem encode_pointer_memo_ok_some (cid kind : String) (code : Nat)
    (schema flags u8 : Int)
    (hk : POINTER_KIND kind = some code)
    (hcid : validate_cid cid = .ok ())
    (hs : validate_non_negative_int schema "schema" = .ok ())
    (hf : validate_non_negative_int flags "flags" = .ok ())
    (hu : validate_non_negative_int u8 "unknown8" = .ok ()) :
    encode_pointer_memo cid kind schema flags (some u8) =
      .ok (_encode_string 1 cid
        ++ (_encode_key 2 0 ++ encodeVarintNat schema.toNat)
        ++ (_encode_key 3 0 ++ encodeVarintNat code)
        ++ (_encode_key 4 0 ++ encodeVarintNat flags.toNat)
        ++ (_encode_key 8 0 ++ encodeVarintNat u8.toNat)) := by
  have h0s : 0 ≤ schema := ((validate_non_negative_int_ok_iff _ _).mp hs).1
  have h0f : 0 ≤ flags := ((validate_non_negative_int_ok_iff _ _).mp hf).1
  have h0u : 0 ≤ u8 := ((validate_non_negative_int_ok_iff _ _).mp hu).1
  have e2 := _encode_varint_field_ok 2 schema h0s
  have e3 := _encode_varint_field_ok 3 (Int.ofNat code) (Int.ofNat_nonneg code)
  have e4 := _encode_varint_field_ok 4 flags h0f
  have e8 := _encode_varint_field_ok 8 u8 h0u
  have hv := validatePointerFields_ok cid schema flags u8 hcid hs hf hu
  simp only [encode_pointer_memo, hk, hv, e2, e3, e4, e8]
  rfl

theorem encode_pointer_memo_ok_none (cid kind : String) (code : Nat)
    (schema flags : Int)
    (hk : POINTER_KIND kind = some code)
    (hcid : validate_cid cid = .ok ())
    (hs : validate_non_negative_int schema "schema" = .ok ())
    (hf : validate_non_negative_int flags "flags" = .ok ()) :
    encode_pointer_memo cid kind schema flags none =
      .ok (_encode_string 1 cid
        ++ (_encode_key 2 0 ++ encodeVarintNat schema.toNat)
        ++ (_encode_key 3 0 ++ encodeVarintNat code)
        ++ (_encode_key 4 0 ++ encodeVarintNat flags.toNat)) := by
  have h0s : 0 ≤ schema := ((validate_non_negative_int_ok_iff _ _).mp hs).1
  have h0f : 0 ≤ flags := ((validate_non_negative_int_ok_iff _ _).mp hf).1
  have hv : validatePointerFields cid schema flags none = .ok () := by
    unfold validatePointerFields
    rw [hcid, hs, hf]
  have e2 := _encode_varint_field_ok 2 schema h0s
  have e3 := _encode_varint_field_ok 3 (Int.ofNat code) (Int.ofNat_nonneg code)
  have e4 := _encode_varint_field_ok 4 flags h0f
  simp only [encode_pointer_memo, hk, hv, e2, e3, e4]
  rfl

theorem encode_pointer_memo_bad_kind (cid kind : String) (schema flags : Int)
    (u8 : Option Int) (hk : POINTER_KIND kind = none) :
    encode_pointer_memo cid kind schema flags u8 =
      .error (.value ("Unknown pointer kind: " ++ kind)) := by
  unfold encode_pointer_memo
  rw [hk]

theorem build_validation_error (account cid kind destination : String)
    (schema flags : Int) (amount_drops : String) (e : PyErr)
    (hv : validateBuildInputs account destination cid schema flags = .error e) :
    build_pointer_transaction account cid kind destination schema flags amount_drops =
      .error (rewrapValidation e) := by
  unfold build_pointer_transaction
  rw [hv]

theorem lookupRangeVal_mem (rs : List (Nat × Nat)) (n v : Nat)
    (h : lookupRangeVal rs n = some v) :
    ∃ r ∈ rs, r.1 ≤ n ∧ n ≤ r.2 := by
  induction rs with
  | nil => cases h
  | cons r rs ih =>
    unfold lookupRangeVal at h
    split_ifs at h with hr
    · exact ⟨r, by simp, hr⟩
    · obtain ⟨s, hmem, hs⟩ := ih h
      exact ⟨s, by simp [hmem], hs⟩

set_option maxRecDepth 8000 in
theorem pyDecimalRanges_subset :
    ∀ r ∈ pyDecimalRanges, ∃ s ∈ pyDigitRanges, s.1 ≤ r.1 ∧ r.2 ≤ s.2 := by
  decide

theorem isPyDigitChar_of_decimal (c : Char)
    (h : (pyDecDigitVal c).isSome = true) : isPyDigitChar c = true := by
  cases hv : pyDecDigitVal c with
  | none => rw [hv] at h; cases h
  | some v =>
    obtain ⟨r, hmem, hlo, hhi⟩ := lookupRangeVal_mem pyDecimalRanges c.toNat v hv
    obtain ⟨s, hsmem, hs1, hs2⟩ := pyDecimalRanges_subset r hmem
    unfold isPyDigitChar
    rw [List.any_eq_true]
    refine ⟨s, hsmem, ?_⟩
    simp only [Bool.and_eq_true, decide_eq_true_eq]
    omega

theorem pyIsdigit_of_pyIntDigits (s : String) (n : Nat)
    (h : pyIntDigits s = some n) : pyIsdigit s = true := by
  unfold pyIntDigits at h
  split_ifs at h with hc
  · unfold pyIsdigit
    simp only [Bool.and_eq_true] at hc ⊢
    refine ⟨hc.1, ?_⟩
    rw [List.all_eq_true]
    intro c hcmem
    exact isPyDigitChar_of_decimal c (List.all_eq_true.mp hc.2 c hcmem)

theorem build_ok_eq (account cid kind destination : String)
    (schema flags : Int) (amount_drops : String) (memo : List Nat) (n : Nat)
    (hv : validateBuildInputs account destination cid schema flags = .ok ())
    (he : encode_pointer_memo cid kind schema flags (some 1) = .ok memo)
    (ha1 : pyIsdigit amount_drops = true)
    (ha2 : pyIntDigits amount_drops = some n)
    (ha3 : 0 < n)
    (hl : memo.length ≤ MAX_MEMO_BYTES) :
    build_pointer_transaction account cid kind destination schema flags amount_drops =
      .ok { TransactionType := "Payment"
            Account := account
            Destination := destination
            Amount := amount_drops
            Memos := [{ Memo := { MemoType := bytesHex (utf8Bytes DEFAULT_MEMO_TYPE)
                                  MemoData := bytesHex memo } }] } := by
  have ha3' : ¬(n ≤ 0) := by omega
  have hl' : ¬(memo.length > MAX_MEMO_BYTES) := by omega
  simp only [build_pointer_transaction, hv, he, ha2]
  simp [ha1, ha3', hl']

theorem build_amount_error_notdigit (account cid kind destination : String)
    (schema flags : Int) (amount_drops : String) (memo : List Nat)
    (hv : validateBuildInputs account destination cid schema flags = .ok ())
    (he : encode_pointer_memo cid kind schema flags (some 1) = .ok memo)
    (ha : pyIsdigit amount_drops = false) :
    build_pointer_transaction account cid kind destination schema flags amount_drops =
      .error (.value "amount_drops must be a positive integer string") := by
  simp only [build_pointer_transaction, hv, he]
  simp [ha]

theorem build_int_literal_error (account cid kind destination : String)
    (schema flags : Int) (amount_drops : String) (memo : List Nat)
    (hv : validateBuildInputs account destination cid schema flags = .ok ())
    (he : encode_pointer_memo cid kind schema flags (some 1) = .ok memo)
    (ha1 : pyIsdigit amount_drops = true)
    (ha2 : pyIntDigits amount_drops = none) :
    build_pointer_transaction account cid kind destination schema flags amount_drops =
      .error (.value ("invalid literal for int() with base 10: '"
        ++ amount_drops ++ "'")) := by
  simp only [build_pointer_transaction, hv, he, ha2]
  simp [ha1]

theorem build_amount_error_zero (account cid kind destination : String)
    (schema flags : Int) (amount_drops : String) (memo : List Nat)
    (hv : validateBuildInputs account destination cid schema flags = .ok ())
    (he : encode_pointer_memo cid kind schema flags (some 1) = .ok memo)
    (ha1 : pyIsdigit amount_drops = true)
    (ha2 : pyIntDigits amount_drops = some 0) :
    build_pointer_transaction account cid kind destination schema flags amount_drops =
      .error (.value "amount_drops must be a positive integer string") := by
  simp only [build_pointer_transaction, hv, he, ha2]
  simp [ha1]

theorem build_size_error (account cid kind destination : String)
    (schema flags : Int) (amount_drops : String) (memo : List Nat) (n : Nat)
    (hv : validateBuildInputs account destination cid schema flags = .ok ())
    (he : encode_pointer_memo cid kind schema flags (some 1) = .ok memo)
    (ha1 : pyIsdigit amount_drops = true)
    (ha2 : pyIntDigits amount_drops = some n)
    (ha3 : 0 < n)
    (hl : memo.length > MAX_MEMO_BYTES) :
    build_pointer_transaction account cid kind destination schema flags amount_drops =
      .error (.value ("MemoData too large: " ++ toString memo.length
        ++ " bytes (max " ++ toString MAX_MEMO_BYTES ++ ")")) := by
  have ha3' : ¬(n ≤ 0) := by omega
  simp only [build_pointer_transaction, hv, he, ha2]
  simp [ha1, ha3', hl]

theorem validateBuildInputs_ok_inv (account destination cid : String)
    (schema flags : Int)
    (h : validateBuildInputs account destination cid schema flags = .ok ()) :
    validate_xrp_address account = .ok () ∧ validate_xrp_address destination = .ok ()
      ∧ validate_cid cid = .ok ()
      ∧ validate_non_negative_int schema "schema" = .ok ()
      ∧ validate_non_negative_int flags "flags" = .ok () := by
  unfold validateBuildInputs at h
  cases ha : validate_xrp_address account with
  | error e => rw [ha] at h; cases h
  | ok u =>
    cases u
    rw [ha] at h
    cases hb : validate_xrp_address destination with
    | error e => rw [hb] at h; cases h
    | ok u =>
      cases u
      rw [hb] at h
      cases hc : validate_cid cid with
      | error e => rw [hc] at h; cases h
      | ok u =>
        cases u
        rw [hc] at h
        cases hs : validate_non_negative_int schema "schema" with
        | error e => rw [hs] at h; cases h
        | ok u =>
          cases u
          rw [hs] at h
          exact ⟨rfl, rfl, rfl, rfl, h⟩

theorem validatePointerFields_ok_inv (cid : String) (schema flags u8 : Int)
    (h : validatePointerFields cid schema flags (some u8) = .ok ()) :
    validate_cid cid = .ok ()
      ∧ validate_non_negative_int schema "schema" = .ok ()
      ∧ validate_non_negative_int flags "flags" = .ok ()
      ∧ validate_non_negative_int u8 "unknown8" = .ok () := by
  unfold validatePointerFields at h
  cases hc : validate_cid cid with
  | error e => rw [hc] at h; cases h
  | ok u =>
    cases u
    rw [hc] at h
    cases hs : validate_non_negative_int schema "schema" with
    | error e => rw [hs] at h; cases h
    | ok u =>
      cases u
      rw [hs] at h
      cases hf : validate_non_negative_int flags "flags" with
      | error e => rw [hf] at h; cases h
      | ok u =>
        cases u
        rw [hf] at h
        exact ⟨rfl, rfl, rfl, h⟩

theorem encode_pointer_memo_ok_inv (cid kind : String) (schema flags : Int)
    (u8opt : Option Int) (memo : List Nat)
    (h : encode_pointer_memo cid kind schema flags u8opt = .ok memo) :
    validatePointerFields cid schema flags u8opt = .ok () := by
  unfold encode_pointer_memo at h
  cases hk : POINTER_KIND kind with
  | none => rw [hk] at h; cases h
  | some code =>
    rw [hk] at h
    cases hvf : validatePointerFields cid schema flags u8opt with
    | error e => rw [hvf] at h; cases h
    | ok u =>
      cases u
      rfl

theorem hexDigitChar_lower (n : Nat) (h : n < 16) :
    isHexLowerChar (hexDigitChar n) = true := by
  interval_cases n <;> decide

theorem bytesHex_all_lower (bs : List Nat) (h : ∀ b ∈ bs, b < 256) :
    (bytesHex bs).data.all isHexLowerChar = true := by
  induction bs with
  | nil => rfl
  | cons b tl ih =>
    have hb : b < 256 := h b (by simp)
    show (hexDigitChar (b / 16) :: hexDigitChar (b % 16) :: (bytesHex tl).data).all
      isHexLowerChar = true
    simp only [List.all_cons, Bool.and_eq_true]
    exact ⟨hexDigitChar_lower _ (by omega), hexDigitChar_lower _ (by omega),
      ih (fun x hx => h x (by simp [hx]))⟩

/-! ## Claims -/

/-- C1: for every pointer record that passes validation, `encode_pointer_memo`
returns exactly the concatenation of field 1 (CID as length-delimited UTF-8
string), field 2 (schema varint), field 3 (kind code varint, 6 for
TASK_SUBMISSION), field 4 (flags varint), and — only when the reserved
(`unknown8`) value is present — field 8; fields 5-7 never appear.  The
spec's example record encodes to bytes beginning with 0x0A, containing the
ASCII CID, of total length under 100. -/
theorem claim_C1 :
    (∀ (cid kind : String) (code : Nat) (schema flags reserved : Int),
      POINTER_KIND kind = some code →
      validate_cid cid = .ok () →
      validate_non_negative_int schema "schema" = .ok () →
      validate_non_negative_int flags "flags" = .ok () →
      validate_non_negative_int reserved "unknown8" = .ok () →
      encode_pointer_memo cid kind schema flags (some reserved) =
        .ok (_encode_string 1 cid
          ++ (_encode_key 2 0 ++ encodeVarintNat schema.toNat)
          ++ (_encode_key 3 0 ++ encodeVarintNat code)
          ++ (_encode_key 4 0 ++ encodeVarintNat flags.toNat)
          ++ (_encode_key 8 0 ++ encodeVarintNat reserved.toNat)))
    ∧ (∀ (cid kind : String) (code : Nat) (schema flags : Int),
      POINTER_KIND kind = some code →
      validate_cid cid = .ok () →
      validate_non_negative_int schema "schema" = .ok () →
      validate_non_negative_int flags "flags" = .ok () →
      encode_pointer_memo cid kind schema flags none =
        .ok (_encode_string 1 cid
          ++ (_encode_key 2 0 ++ encodeVarintNat schema.toNat)
          ++ (_encode_key 3 0 ++ encodeVarintNat code)
          ++ (_encode_key 4 0 ++ encodeVarintNat flags.toNat)))
    ∧ POINTER_KIND "TASK_SUBMISSION" = some 6
    ∧ encode_pointer_memo testCid "TASK_SUBMISSION" 1 1 (some 1) = .ok testMemo
    ∧ testMemo.head? = some 0x0A
    ∧ containsSeq (utf8Bytes testCid) testMemo = true
    ∧ testMemo.length < 100 := by
  refine ⟨?_, ?_, rfl, rfl, by decide, by decide, by decide⟩
  · intro cid kind code schema flags reserved hk hcid hs hf hu
    exact encode_pointer_memo_ok_some cid kind code schema flags reserved hk hcid hs hf hu
  · intro cid kind code schema flags hk hcid hs hf
    exact encode_pointer_memo_ok_none cid kind code schema flags hk hcid hs hf

/-- Witness for C1: the general field-order equation evaluated at the spec's
example record. -/
theorem claim_C1_witness :
    encode_pointer_memo testCid "TASK_SUBMISSION" 1 1 (some 1) =
      .ok (_encode_string 1 testCid
        ++ (_encode_key 2 0 ++ encodeVarintNat (Int.toNat 1))
        ++ (_encode_key 3 0 ++ encodeVarintNat 6)
        ++ (_encode_key 4 0 ++ encodeVarintNat (Int.toNat 1))
        ++ (_encode_key 8 0 ++ encodeVarintNat (Int.toNat 1))) :=
  claim_C1.1 testCid "TASK_SUBMISSION" 6 1 1 1 rfl rfl rfl rfl rfl

/-- C3 (amended): varint encode-then-decode restores every non-negative
value — in particular every `v` with `0 ≤ v ≤ 2^31-1` — and encoding fails
for negative values; but the varint encoder enforces no upper bound, so
values above `2^31-1` encode successfully (the `2^31-1` ceiling lives in
`validate_non_negative_int`, not in the codec). -/
theorem claim_C3 :
    (∀ v : Int, 0 ≤ v →
      _encode_varint v = .ok (encodeVarintNat v.toNat)
        ∧ decodeVarint (encodeVarintNat v.toNat) = some v.toNat)
    ∧ (∀ v : Int, v < 0 →
      _encode_varint v = .error (.value "varint cannot be negative"))
    ∧ (∀ v : Int, MAX_INT32 < v → isOkE (_encode_varint v) = true) := by
  refine ⟨?_, ?_, ?_⟩
  · intro v hv
    exact ⟨by unfold _encode_varint; rw [if_neg (by omega)], decodeVarint_encode v.toNat⟩
  · intro v hv
    unfold _encode_varint
    rw [if_pos hv]
  · intro v hv
    have : ¬(v < 0) := by simp [MAX_INT32] at hv; omega
    unfold _encode_varint isOkE
    rw [if_neg this]

/-- Counterexample to C3 as stated: `2^31` lies outside `0..2^31-1`, yet the
varint encoder does not fail on it — it encodes it to five bytes that even
decode back correctly. -/
theorem claim_C3_counterexample :
    MAX_INT32 < (2147483648 : Int)
      ∧ _encode_varint 2147483648 = .ok [128, 128, 128, 128, 8]
      ∧ isOkE (_encode_varint 2147483648) = true
      ∧ decodeVarint [128, 128, 128, 128, 8] = some 2147483648 :=
  ⟨by decide, rfl, rfl, by decide⟩

/-- Witness for C3: the round trip at `v = 5` and the failure at `v = -1`. -/
theorem claim_C3_witness :
    (_encode_varint 5 = .ok (encodeVarintNat (Int.toNat 5))
      ∧ decodeVarint (encodeVarintNat (Int.toNat 5)) = some (Int.toNat 5))
    ∧ _encode_varint (-1) = .error (.value "varint cannot be negative") :=
  ⟨claim_C3.1 5 (by decide), claim_C3.2.1 (-1) (by decide)⟩

/-- C7: fail-fast ordering — an unrecognized kind name fails
`encode_pointer_memo` immediately with an error naming the value, before any
field validation (so an invalid CID does not change the error), and
`build_pointer_transaction` validates addresses before the CID (so with an
invalid account and an invalid CID the address error surfaces). -/
theorem claim_C7 :
    (∀ (cid kind : String) (schema flags : Int) (u8 : Option Int),
      POINTER_KIND kind = none →
      encode_pointer_memo cid kind schema flags u8 =
        .error (.value ("Unknown pointer kind: " ++ kind)))
    ∧ encode_pointer_memo "not_a_valid_cid" "BOGUS_KIND" 1 1 (some 1) =
        .error (.value "Unknown pointer kind: BOGUS_KIND")
    ∧ (∀ (account destination cid kind : String) (schema flags : Int)
        (amount_drops : String) (e : PyErr),
      validate_xrp_address account = .error e →
      build_pointer_transaction account cid kind destination schema flags amount_drops =
        .error (rewrapValidation e))
    ∧ build_pointer_transaction "not_an_address" "not_a_valid_cid" "TASK_SUBMISSION"
        DEFAULT_DESTINATION 1 1 "1" =
        .error (.value "invalid XRP address format: not_an_address") := by
  refine ⟨?_, rfl, ?_, rfl⟩
  · intro cid kind schema flags u8 hk
    exact encode_pointer_memo_bad_kind cid kind schema flags u8 hk
  · intro account destination cid kind schema flags amount_drops e ha
    have hv : validateBuildInputs account destination cid schema flags = .error e := by
      unfold validateBuildInputs
      rw [ha]
    exact build_validation_error account cid kind destination schema flags amount_drops e hv

/-- Witness for C7: the two universally quantified orderings evaluated at
concrete invalid inputs. -/
theorem claim_C7_witness :
    encode_pointer_memo "" "NO_SUCH_KIND" 1 1 (some 1) =
      .error (.value "Unknown pointer kind: NO_SUCH_KIND")
    ∧ build_pointer_transaction "bad" "" "TASK_SUBMISSION" DEFAULT_DESTINATION 1 1 "1" =
      .error (rewrapValidation (.validation "invalid XRP address format: bad")) :=
  ⟨claim_C7.1 "" "NO_SUCH_KIND" 1 1 (some 1) rfl,
   claim_C7.2.2.1 "bad" DEFAULT_DESTINATION "" "TASK_SUBMISSION" 1 1 "1"
     (.validation "invalid XRP address format: bad") rfl⟩

/-- C9: whenever any input validation of `build_pointer_transaction` fails,
the first violated constraint's message is surfaced, re-raised at the build
boundary as a plain `ValueError` carrying that message. -/
theorem claim_C9 :
    (∀ (account cid kind destination : String) (schema flags : Int)
        (amount_drops m : String),
      validateBuildInputs account destination cid schema flags = .error (.validation m) →
      build_pointer_transaction account cid kind destination schema flags amount_drops =
        .error (.value m))
    ∧ (∀ (account destination cid : String) (schema flags : Int) (e : PyErr),
      validateBuildInputs account destination cid schema flags = .error e →
      ∃ m, e = PyErr.validation m) := by
  constructor
  · intro account cid kind destination schema flags amount_drops m hv
    exact build_validation_error account cid kind destination schema flags
      amount_drops (.validation m) hv
  · intro account destination cid schema flags e hv
    exact validateBuildInputs_error_shape account destination cid schema flags e hv

/-- Witness for C9: the invalid-account message surfaces, wrapped as a
`ValueError`, from a concrete failing build. -/
theorem claim_C9_witness :
    build_pointer_transaction "not_an_address" testCid "TASK_SUBMISSION"
      DEFAULT_DESTINATION 1 1 "1" =
      .error (.value "invalid XRP address format: not_an_address") :=
  claim_C9.1 "not_an_address" testCid "TASK_SUBMISSION" DEFAULT_DESTINATION 1 1 "1"
    "invalid XRP address format: not_an_address" rfl

/-- C2: every successful `build_pointer_transaction` call returns a Payment
descriptor echoing account, destination, and the amount string unmodified,
with exactly one memo whose `MemoType` is the lowercase hex of the ASCII
string `pf.ptr` and whose `MemoData` is the lowercase hex (no separators, no
`0x` prefix) of `encode_pointer_memo(cid, kind, schema, flags)` with the
reserved field defaulting to 1. -/
theorem claim_C2 :
    (∀ (account cid kind destination : String) (schema flags : Int)
        (amount_drops : String) (tx : Tx),
      build_pointer_transaction account cid kind destination schema flags amount_drops =
        .ok tx →
      tx.TransactionType = "Payment" ∧ tx.Account = account
        ∧ tx.Destination = destination ∧ tx.Amount = amount_drops
        ∧ ∃ memo, encode_pointer_memo cid kind schema flags (some 1) = .ok memo
            ∧ tx.Memos = [{ Memo := { MemoType := bytesHex (utf8Bytes "pf.ptr")
                                      MemoData := bytesHex memo } }])
    ∧ bytesHex (utf8Bytes "pf.ptr") = "70662e707472"
    ∧ (∀ bs : List Nat, (∀ b ∈ bs, b < 256) →
        (bytesHex bs).data.all isHexLowerChar = true) := by
  refine ⟨?_, rfl, bytesHex_all_lower⟩
  intro account cid kind destination schema flags amount_drops tx h
  unfold build_pointer_transaction at h
  cases hv : validateBuildInputs account destination cid schema flags with
  | error e => rw [hv] at h; cases h
  | ok u =>
    cases u
    rw [hv] at h
    cases he : encode_pointer_memo cid kind schema flags (some 1) with
    | error e => rw [he] at h; cases h
    | ok memo =>
      rw [he] at h
      dsimp only at h
      by_cases h1 : (!pyIsdigit amount_drops) = true
      · rw [if_pos h1] at h; cases h
      · rw [if_neg h1] at h
        cases hn : pyIntDigits amount_drops with
        | none => rw [hn] at h; cases h
        | some n =>
          rw [hn] at h
          dsimp only at h
          by_cases h2 : n ≤ 0
          · rw [if_pos h2] at h; cases h
          · rw [if_neg h2] at h
            by_cases h3 : memo.length > MAX_MEMO_BYTES
            · rw [if_pos h3] at h; cases h
            · rw [if_neg h3] at h
              cases h
              exact ⟨rfl, rfl, rfl, rfl, memo, rfl, rfl⟩

/-- Witness for C2: the descriptor shape at a concrete successful build. -/
theorem claim_C2_witness :
    (okTx (build_pointer_transaction testAccount testCid "TASK_SUBMISSION"
        DEFAULT_DESTINATION 1 1 "1")).TransactionType = "Payment"
    ∧ (okTx (build_pointer_transaction testAccount testCid "TASK_SUBMISSION"
        DEFAULT_DESTINATION 1 1 "1")).Account = testAccount
    ∧ (okTx (build_pointer_transaction testAccount testCid "TASK_SUBMISSION"
        DEFAULT_DESTINATION 1 1 "1")).Destination = DEFAULT_DESTINATION
    ∧ (okTx (build_pointer_transaction testAccount testCid "TASK_SUBMISSION"
        DEFAULT_DESTINATION 1 1 "1")).Amount = "1"
    ∧ ∃ memo, encode_pointer_memo testCid "TASK_SUBMISSION" 1 1 (some 1) = .ok memo
        ∧ (okTx (build_pointer_transaction testAccount testCid "TASK_SUBMISSION"
            DEFAULT_DESTINATION 1 1 "1")).Memos =
          [{ Memo := { MemoType := bytesHex (utf8Bytes "pf.ptr")
                       MemoData := bytesHex memo } }] :=
  claim_C2.1 testAccount testCid "TASK_SUBMISSION" DEFAULT_DESTINATION 1 1 "1"
    (okTx (build_pointer_transaction testAccount testCid "TASK_SUBMISSION"
      DEFAULT_DESTINATION 1 1 "1")) rfl

/-- C4: `encode_pointer_memo` enforces no size ceiling (it succeeds on every
validated record regardless of length); `build_pointer_transaction` fails,
for otherwise-valid inputs, exactly when the encoded memo exceeds
`MAX_MEMO_BYTES = 1024` bytes, with a message reporting both the actual byte
count and the maximum, and succeeds when the memo is within the ceiling. -/
theorem claim_C4 :
    (∀ (cid kind : String) (code : Nat) (schema flags u8 : Int),
      POINTER_KIND kind = some code →
      validate_cid cid = .ok () →
      validate_non_negative_int schema "schema" = .ok () →
      validate_non_negative_int flags "flags" = .ok () →
      validate_non_negative_int u8 "unknown8" = .ok () →
      isOkE (encode_pointer_memo cid kind schema flags (some u8)) = true)
    ∧ (∀ (account cid kind destination : String) (schema flags : Int)
        (amount_drops : String) (memo : List Nat) (n : Nat),
      validateBuildInputs account destination cid schema flags = .ok () →
      encode_pointer_memo cid kind schema flags (some 1) = .ok memo →
      pyIsdigit amount_drops = true →
      pyIntDigits amount_drops = some n →
      0 < n →
      (memo.length > MAX_MEMO_BYTES →
        build_pointer_transaction account cid kind destination schema flags amount_drops =
          .error (.value ("MemoData too large: " ++ toString memo.length
            ++ " bytes (max " ++ toString MAX_MEMO_BYTES ++ ")")))
      ∧ (memo.length ≤ MAX_MEMO_BYTES →
        isOkE (build_pointer_transaction account cid kind destination
          schema flags amount_drops) = true)) := by
  constructor
  · intro cid kind code schema flags u8 hk hcid hs hf hu
    rw [encode_pointer_memo_ok_some cid kind code schema flags u8 hk hcid hs hf hu]
    rfl
  · intro account cid kind destination schema flags amount_drops memo n hv he ha1 ha2 ha3
    constructor
    · intro hl
      exact build_size_error account cid kind destination schema flags amount_drops
        memo n hv he ha1 ha2 ha3 hl
    · intro hl
      rw [build_ok_eq account cid kind destination schema flags amount_drops
        memo n hv he ha1 ha2 ha3 hl]
      rfl

/-- Witness for C4: the encoder succeeds and the build succeeds on the
spec's example record, whose memo is well under the ceiling. -/
theorem claim_C4_witness :
    isOkE (encode_pointer_memo testCid "TASK_SUBMISSION" 1 1 (some 1)) = true
    ∧ isOkE (build_pointer_transaction testAccount testCid "TASK_SUBMISSION"
        DEFAULT_DESTINATION 1 1 "1") = true :=
  ⟨claim_C4.1 testCid "TASK_SUBMISSION" 6 1 1 1 rfl rfl rfl rfl rfl,
   (claim_C4.2 testAccount testCid "TASK_SUBMISSION" DEFAULT_DESTINATION 1 1 "1"
     testMemo 1 rfl rfl rfl rfl (by decide)).2 (by decide)⟩

/-- C5: for otherwise-valid inputs, `build_pointer_transaction` fails for
every `amount_drops` that is not a string of Unicode decimal digits denoting
a strictly positive integer (with the amount message when `isdigit()` is
false or the value is zero, and with `int()`'s own `ValueError` for
digit-class characters that are not decimal digits), and succeeds when it
is; in particular `"0"` and `"-1"` both fail. -/
theorem claim_C5 :
    (∀ (account cid kind destination : String) (schema flags : Int)
        (amount_drops : String) (memo : List Nat),
      validateBuildInputs account destination cid schema flags = .ok () →
      encode_pointer_memo cid kind schema flags (some 1) = .ok memo →
      memo.length ≤ MAX_MEMO_BYTES →
      ((¬∃ n, pyIntDigits amount_drops = some n ∧ 0 < n) →
        isOkE (build_pointer_transaction account cid kind destination
          schema flags amount_drops) = false)
      ∧ (∀ n, pyIntDigits amount_drops = some n → 0 < n →
        isOkE (build_pointer_transaction account cid kind destination
          schema flags amount_drops) = true)
      ∧ (pyIsdigit amount_drops = false →
        build_pointer_transaction account cid kind destination schema flags amount_drops =
          .error (.value "amount_drops must be a positive integer string"))
      ∧ (pyIsdigit amount_drops = true → pyIntDigits amount_drops = none →
        build_pointer_transaction account cid kind destination schema flags amount_drops =
          .error (.value ("invalid literal for int() with base 10: '"
            ++ amount_drops ++ "'")))
      ∧ (pyIntDigits amount_drops = some 0 →
        build_pointer_transaction account cid kind destination schema flags amount_drops =
          .error (.value "amount_drops must be a positive integer string")))
    ∧ build_pointer_transaction testAccount testCid "TASK_SUBMISSION"
        DEFAULT_DESTINATION 1 1 "0" =
        .error (.value "amount_drops must be a positive integer string")
    ∧ build_pointer_transaction testAccount testCid "TASK_SUBMISSION"
        DEFAULT_DESTINATION 1 1 "-1" =
        .error (.value "amount_drops must be a positive integer string") := by
  refine ⟨?_, rfl, rfl⟩
  intro account cid kind destination schema flags amount_drops memo hv he hl
  refine ⟨?_, ?_, ?_, ?_, ?_⟩
  · intro ha
    by_cases hd : pyIsdigit amount_drops = true
    · cases hn : pyIntDigits amount_drops with
      | none =>
        rw [build_int_literal_error account cid kind destination schema flags
          amount_drops memo hv he hd hn]
        rfl
      | some n =>
        have hn0 : n = 0 := by
          by_contra hne
          exact ha ⟨n, hn, by omega⟩
        subst hn0
        rw [build_amount_error_zero account cid kind destination schema flags
          amount_drops memo hv he hd hn]
        rfl
    · have hd' : pyIsdigit amount_drops = false := by
        revert hd
        cases pyIsdigit amount_drops <;> simp
      rw [build_amount_error_notdigit account cid kind destination schema flags
        amount_drops memo hv he hd']
      rfl
  · intro n hn hpos
    rw [build_ok_eq account cid kind destination schema flags amount_drops
      memo n hv he (pyIsdigit_of_pyIntDigits amount_drops n hn) hn hpos hl]
    rfl
  · intro hd
    exact build_amount_error_notdigit account cid kind destination schema flags
      amount_drops memo hv he hd
  · intro hd hn
    exact build_int_literal_error account cid kind destination schema flags
      amount_drops memo hv he hd hn
  · intro hn
    exact build_amount_error_zero account cid kind destination schema flags
      amount_drops memo hv he (pyIsdigit_of_pyIntDigits amount_drops 0 hn) hn

/-- Witness for C5: the amount rule at concrete amounts — `"0"` fails with
the amount message, the Arabic-Indic digit two `"٢"` is a positive decimal
string and succeeds, and the superscript `"²"` is `isdigit`-true but not
decimal, failing with `int()`'s error. -/
theorem claim_C5_witness :
    build_pointer_transaction testAccount testCid "TASK_SUBMISSION"
      DEFAULT_DESTINATION 1 1 "0" =
      .error (.value "amount_drops must be a positive integer string")
    ∧ isOkE (build_pointer_transaction testAccount testCid "TASK_SUBMISSION"
        DEFAULT_DESTINATION 1 1 "٢") = true
    ∧ build_pointer_transaction testAccount testCid "TASK_SUBMISSION"
        DEFAULT_DESTINATION 1 1 "²" =
      .error (.value ("invalid literal for int() with base 10: '" ++ "²" ++ "'")) :=
  ⟨(claim_C5.1 testAccount testCid "TASK_SUBMISSION" DEFAULT_DESTINATION 1 1 "0"
      testMemo rfl rfl (by decide)).2.2.2.2 (by decide),
   (claim_C5.1 testAccount testCid "TASK_SUBMISSION" DEFAULT_DESTINATION 1 1 "٢"
      testMemo rfl rfl (by decide)).2.1 2 (by decide) (by decide),
   (claim_C5.1 testAccount testCid "TASK_SUBMISSION" DEFAULT_DESTINATION 1 1 "²"
      testMemo rfl rfl (by decide)).2.2.2.1 (by decide) (by decide)⟩

/-- C8: `validate_non_negative_int` accepts exactly the integers in
`0..2^31-1`, and every schema, flags, or reserved value that passes the
pointer encoder lies in this range. -/
theorem claim_C8 :
    (∀ (v : Int) (name : String),
      validate_non_negative_int v name = .ok () ↔ 0 ≤ v ∧ v ≤ 2 ^ 31 - 1)
    ∧ (∀ (cid kind : String) (schema flags u8 : Int) (memo : List Nat),
      encode_pointer_memo cid kind schema flags (some u8) = .ok memo →
      (0 ≤ schema ∧ schema ≤ 2 ^ 31 - 1)
        ∧ (0 ≤ flags ∧ flags ≤ 2 ^ 31 - 1)
        ∧ (0 ≤ u8 ∧ u8 ≤ 2 ^ 31 - 1)) := by
  constructor
  · intro v name
    exact validate_non_negative_int_ok_iff v name
  · intro cid kind schema flags u8 memo h
    obtain ⟨-, hs, hf, hu⟩ :=
      validatePointerFields_ok_inv cid schema flags u8
        (encode_pointer_memo_ok_inv cid kind schema flags (some u8) memo h)
    exact ⟨(validate_non_negative_int_ok_iff _ _).mp hs,
      (validate_non_negative_int_ok_iff _ _).mp hf,
      (validate_non_negative_int_ok_iff _ _).mp hu⟩

/-- Witness for C8: the range characterization and the encoder-side bound at
the spec's example record. -/
theorem claim_C8_witness :
    (validate_non_negative_int 1 "schema" = .ok () ↔ 0 ≤ (1 : Int) ∧ (1 : Int) ≤ 2 ^ 31 - 1)
    ∧ ((0 ≤ (1 : Int) ∧ (1 : Int) ≤ 2 ^ 31 - 1)
        ∧ (0 ≤ (1 : Int) ∧ (1 : Int) ≤ 2 ^ 31 - 1)
        ∧ (0 ≤ (1 : Int) ∧ (1 : Int) ≤ 2 ^ 31 - 1)) :=
  ⟨claim_C8.1 1 "schema",
   claim_C8.2 testCid "TASK_SUBMISSION" 1 1 1 testMemo rfl⟩

/-- C6: `validate_xrp_address` accepts exactly the strings that are an `r`
followed by 24-34 characters of the restricted base58 alphabet (25-35
characters total, anchored); the spec's example address passes and
`"not_an_address"` fails. -/
theorem claim_C6 :
    (∀ a : String, validate_xrp_address a = .ok () ↔
      (25 ≤ a.length ∧ a.length ≤ 35 ∧ a.data.head? = some 'r'
        ∧ ∀ c ∈ a.data.tail, isXrpAddrChar c = true))
    ∧ validate_xrp_address testAccount = .ok ()
    ∧ isOkE (validate_xrp_address "not_an_address") = false := by
  refine ⟨?_, rfl, rfl⟩
  intro a
  obtain ⟨l⟩ := a
  cases l with
  | nil =>
    constructor
    · intro h
      cases h
    · rintro ⟨h25, -, -, -⟩
      simp [String.length] at h25
  | cons c rest =>
    have hne : (⟨c :: rest⟩ : String) ≠ "" := by
      intro hh
      have hd : c :: rest = ([] : List Char) := congrArg String.data hh
      cases hd
    have hlen : (⟨c :: rest⟩ : String).length = rest.length + 1 := by
      simp [String.length]
    have hval : validate_xrp_address ⟨c :: rest⟩ =
        (if xrpAddressMatch ⟨c :: rest⟩ = true then .ok ()
         else .error (.validation
           ("invalid XRP address format: " ++ String.mk (c :: rest)))) := by
      unfold validate_xrp_address
      rw [if_neg hne]
    have hmatch : xrpAddressMatch ⟨c :: rest⟩ =
        (decide (c = 'r') && decide (24 ≤ rest.length) && decide (rest.length ≤ 34)
          && rest.all isXrpAddrChar) := rfl
    rw [hval, hmatch]
    by_cases hb : (decide (c = 'r') && decide (24 ≤ rest.length)
        && decide (rest.length ≤ 34) && rest.all isXrpAddrChar) = true
    · rw [if_pos hb]
      simp only [Bool.and_eq_true, decide_eq_true_eq] at hb
      obtain ⟨⟨⟨hr, h24⟩, h34⟩, hall⟩ := hb
      constructor
      · intro _
        refine ⟨by rw [hlen]; omega, by rw [hlen]; omega, ?_, ?_⟩
        · show (c :: rest).head? = some 'r'
          rw [hr]
          rfl
        · intro x hx
          exact List.all_eq_true.mp hall x hx
      · intro _
        rfl
    · rw [if_neg hb]
      constructor
      · intro h
        cases h
      · rintro ⟨h25, h35, hhead, hall⟩
        exfalso
        apply hb
        have hr : c = 'r' := by
          have : (c :: rest).head? = some 'r' := hhead
          simpa using this
        rw [hlen] at h25 h35
        simp only [Bool.and_eq_true, decide_eq_true_eq]
        refine ⟨⟨⟨hr, by omega⟩, by omega⟩, List.all_eq_true.mpr ?_⟩
        intro x hx
        exact hall x hx

/-- Witness for C6: the shape characterization evaluated at the spec's
example address. -/
theorem claim_C6_witness :
    validate_xrp_address testAccount = .ok ()
      ↔ (25 ≤ testAccount.length ∧ testAccount.length ≤ 35
          ∧ testAccount.data.head? = some 'r'
          ∧ ∀ c ∈ testAccount.data.tail, isXrpAddrChar c = true) :=
  claim_C6.1 testAccount

/-- The byte length of the default-parameter memo: 9 fixed bytes (field key
1, and the four single-byte key/value pairs for schema 1, kind 6, flags 1,
reserved 1) plus the CID length varint plus the CID's UTF-8 bytes. -/
theorem default_memo_length (cid : String) (memo : List Nat)
    (hcid : validate_cid cid = .ok ())
    (he : encode_pointer_memo cid "TASK_SUBMISSION" 1 1 (some 1) = .ok memo) :
    memo.length =
      9 + (encodeVarintNat (utf8Bytes cid).length).length + (utf8Bytes cid).length := by
  have hnf := encode_pointer_memo_ok_some cid "TASK_SUBMISSION" 6 1 1 1 rfl hcid rfl rfl rfl
  rw [he] at hnf
  injection hnf with hmemo
  subst hmemo
  show (([10] ++ encodeVarintNat (utf8Bytes cid).length ++ utf8Bytes cid)
    ++ ([16] ++ [1]) ++ ([24] ++ [6]) ++ ([32] ++ [1]) ++ ([64] ++ [1])).length = _
  simp only [List.length_append, List.length_cons, List.length_nil]
  omega

/-- C10 (amended): with the defaults used by `build_pointer_transaction`
(schema 1, flags 1, kind TASK_SUBMISSION, reserved 1) the memo for a valid
CID whose UTF-8 encoding occupies L bytes is exactly L+10 bytes when L < 128
and exactly L+11 bytes when 128 ≤ L ≤ 16383; the 1024-byte ceiling is
unreachable whenever L ≤ 1013 and is taken whenever L ≥ 1014.  (The original
claim measured L in characters; for non-ASCII CIDs character count and UTF-8
byte count differ, so the byte count is the correct measure.) -/
theorem claim_C10 :
    (∀ (cid : String) (memo : List Nat),
      validate_cid cid = .ok () →
      encode_pointer_memo cid "TASK_SUBMISSION" 1 1 (some 1) = .ok memo →
      ((utf8Bytes cid).length < 128 → memo.length = (utf8Bytes cid).length + 10)
      ∧ (128 ≤ (utf8Bytes cid).length → (utf8Bytes cid).length ≤ 16383 →
          memo.length = (utf8Bytes cid).length + 11))
    ∧ (∀ (account destination cid amount_drops : String) (memo : List Nat) (n : Nat),
      validateBuildInputs account destination cid 1 1 = .ok () →
      encode_pointer_memo cid "TASK_SUBMISSION" 1 1 (some 1) = .ok memo →
      pyIsdigit amount_drops = true →
      pyIntDigits amount_drops = some n →
      0 < n →
      ((utf8Bytes cid).length ≤ 1013 →
        isOkE (build_pointer_transaction account cid "TASK_SUBMISSION" destination 1 1
          amount_drops) = true)
      ∧ (1014 ≤ (utf8Bytes cid).length →
        1024 < memo.length
        ∧ build_pointer_transaction account cid "TASK_SUBMISSION" destination 1 1
            amount_drops =
          .error (.value ("MemoData too large: " ++ toString memo.length
            ++ " bytes (max " ++ toString MAX_MEMO_BYTES ++ ")")))) := by
  constructor
  · intro cid memo hcid he
    have hlen := default_memo_length cid memo hcid he
    constructor
    · intro h128
      rw [hlen, encodeVarintNat_lt128 _ h128]
      simp
      omega
    · intro h128 h16384
      rw [hlen, encodeVarintNat_length_two _ h128 (by omega)]
      omega
  · intro account destination cid amount_drops memo n hv he ha1 ha2 ha3
    have hcid : validate_cid cid = .ok () :=
      (validateBuildInputs_ok_inv account destination cid 1 1 hv).2.2.1
    have hlen := default_memo_length cid memo hcid he
    constructor
    · intro h1013
      have hmax : memo.length ≤ MAX_MEMO_BYTES := by
        show memo.length ≤ 1024
        by_cases h128 : (utf8Bytes cid).length < 128
        · rw [hlen, encodeVarintNat_lt128 _ h128]
          simp
          omega
        · rw [hlen, encodeVarintNat_length_two _ (by omega) (by omega)]
          omega
      rw [build_ok_eq account cid "TASK_SUBMISSION" destination 1 1 amount_drops
        memo n hv he ha1 ha2 ha3 hmax]
      rfl
    · intro h1014
      have hvl := encodeVarintNat_length_ge_two (utf8Bytes cid).length (by omega)
      have hbig : 1024 < memo.length := by omega
      refine ⟨hbig, ?_⟩
      exact build_size_error account cid "TASK_SUBMISSION" destination 1 1 amount_drops
        memo n hv he ha1 ha2 ha3 hbig

/-- Counterexample to C10 as stated: `multibyteCid` is a valid CID of 20
characters (< 128), yet its default-parameter memo is 46 bytes, not
20 + 10 = 30 — the formula in the claim counts characters where the code
counts UTF-8 bytes. -/
theorem claim_C10_counterexample :
    validate_cid multibyteCid = .ok ()
    ∧ multibyteCid.length = 20
    ∧ multibyteCid.length < 128
    ∧ encode_pointer_memo multibyteCid "TASK_SUBMISSION" 1 1 (some 1) =
        .ok (okBytes (encode_pointer_memo multibyteCid "TASK_SUBMISSION" 1 1 (some 1)))
    ∧ (okBytes (encode_pointer_memo multibyteCid "TASK_SUBMISSION" 1 1 (some 1))).length = 46
    ∧ (okBytes (encode_pointer_memo multibyteCid "TASK_SUBMISSION" 1 1 (some 1))).length ≠
        multibyteCid.length + 10 :=
  ⟨rfl, rfl, by decide, rfl, rfl, by decide⟩

/-- Witness for C10: the byte-length formula evaluated on the spec's
all-ASCII example CID (24 bytes, memo 34 bytes). -/
theorem claim_C10_witness :
    testMemo.length = (utf8Bytes testCid).length + 10 :=
  ((claim_C10.1 testCid testMemo rfl rfl).1 (by decide))

end Pft
